import Mathlib

/-!
Verification of the online-news-api core against its design spec.

The Rust sources embedded here (shallowly, as pure Lean functions):
  * `src/domain/tier.rs`            — `SubscriptionTier` and its policy table
  * `src/config.rs`                 — `Config` (rate-limit fields)
  * `src/api/middleware/rate_limiter.rs` — `RateLimiter::check`
  * `src/errors.rs`                 — `AppError` and `to_response`
  * `src/services/news_service.rs`  — `NewsService::gate_article`
  * `src/infrastructure/elasticsearch.rs` — query building, trending
  * `src/domain/models.rs`          — the domain data model
-/

-- ═══════════════════════ Domain: tiers (src/domain/tier.rs) ═══════════════════════

/-- Model of Rust `str::to_uppercase` restricted to ASCII, which is the only
range the tier labels use. A Rust `char` is a Unicode scalar value, as is a
Lean `Char`. -/
def to_uppercase (s : String) : String := String.mk (s.data.map Char.toUpper)

/-- Model of `SubscriptionTier` from src/domain/tier.rs. -/
inductive SubscriptionTier where
  | Basic
  | Pro
  | Ultra
  | Mega
deriving Repr, DecidableEq

/-- Application configuration (src/config.rs); only the rate-limit fields
matter to the claims, but all fields are carried. -/
structure Config where
  es_host : String
  es_username : String
  es_password : String
  es_index_pattern : String
  port : Nat
  rapidapi_proxy_secret : String
  rate_limit_basic : Nat
  rate_limit_pro : Nat
  rate_limit_ultra : Nat
  rate_limit_mega : Nat
deriving Repr, DecidableEq

namespace SubscriptionTier

/-- Model of `SubscriptionTier::from_header` — parse the subscription header value. -/
def from_header (value : String) : SubscriptionTier :=
  match to_uppercase value with
  | "PRO" => .Pro
  | "ULTRA" => .Ultra
  | "MEGA" | "CUSTOM" => .Mega
  | _ => .Basic

/-- Model of `SubscriptionTier::name`. -/
def name : SubscriptionTier → String
  | .Basic => "basic"
  | .Pro => "pro"
  | .Ultra => "ultra"
  | .Mega => "mega"

/-- Model of `SubscriptionTier::hourly_limit`. -/
def hourly_limit (t : SubscriptionTier) (config : Config) : Nat :=
  match t with
  | .Basic => config.rate_limit_basic
  | .Pro => config.rate_limit_pro
  | .Ultra => config.rate_limit_ultra
  | .Mega => config.rate_limit_mega

/-- Model of `SubscriptionTier::max_page_size`. -/
def max_page_size : SubscriptionTier → Nat
  | .Basic => 10
  | .Pro => 25
  | .Ultra => 50
  | .Mega => 100

/-- Model of `SubscriptionTier::has_full_content`. -/
def has_full_content : SubscriptionTier → Bool
  | .Basic => false
  | _ => true

/-- Model of `SubscriptionTier::has_entities`. -/
def has_entities : SubscriptionTier → Bool
  | .Ultra => true
  | .Mega => true
  | _ => false

end SubscriptionTier

/-- Model of `get_tier` in src/api/handlers.rs: a missing (or unreadable) subscription
header defaults to the literal label "BASIC" before tier parsing. -/
def get_tier (header : Option String) : SubscriptionTier :=
  SubscriptionTier.from_header (header.getD "BASIC")

-- ═══════════════════════ C3 / C9: tier-from-label resolution ═══════════════════════

/-- C3 (counterexample): the label "custom" is not, case-insensitively, one
of "pro", "ultra", "mega", yet `from_header` resolves it to `Mega`, not to
the claimed `Basic` default. -/
theorem from_header_custom_refutes_default :
    to_uppercase "custom" ≠ "PRO" ∧ to_uppercase "custom" ≠ "ULTRA" ∧
    to_uppercase "custom" ≠ "MEGA" ∧
    SubscriptionTier.from_header "custom" = SubscriptionTier.Mega ∧
    SubscriptionTier.from_header "custom" ≠ SubscriptionTier.Basic := by
  refine ⟨by decide, by decide, by decide, by decide, by decide⟩

/-- C3 (amended): every label that is not, case-insensitively, one of
"pro", "ultra", "mega" or the alias "custom" resolves to `Basic`; a missing
header also resolves to `Basic`; and resolution is case-insensitive (it
depends only on the uppercased label). -/
theorem from_header_default_basic (s : String)
    (h1 : to_uppercase s ≠ "PRO") (h2 : to_uppercase s ≠ "ULTRA")
    (h3 : to_uppercase s ≠ "MEGA") (h4 : to_uppercase s ≠ "CUSTOM") :
    SubscriptionTier.from_header s = SubscriptionTier.Basic ∧
    get_tier none = SubscriptionTier.Basic ∧
    (∀ u v : String, to_uppercase u = to_uppercase v →
      SubscriptionTier.from_header u = SubscriptionTier.from_header v) := by
  refine ⟨?_, by decide, ?_⟩
  · unfold SubscriptionTier.from_header
    split <;> simp_all
  · intro u v h
    unfold SubscriptionTier.from_header
    rw [h]

/-- Witness for C3 at the concrete label "gold". -/
theorem from_header_default_basic_witness :
    SubscriptionTier.from_header "gold" = SubscriptionTier.Basic :=
  (from_header_default_basic "gold" (by decide) (by decide) (by decide) (by decide)).1

/-- C9: any letter casing of "custom" resolves to the `Mega` tier, which has
the maximum page size and full content and entity visibility. -/
theorem from_header_custom_alias_mega (s : String)
    (h : to_uppercase s = "CUSTOM") :
    SubscriptionTier.from_header s = SubscriptionTier.Mega ∧
    (SubscriptionTier.from_header s).max_page_size = 100 ∧
    (SubscriptionTier.from_header s).has_full_content = true ∧
    (SubscriptionTier.from_header s).has_entities = true := by
  have hm : SubscriptionTier.from_header s = SubscriptionTier.Mega := by
    unfold SubscriptionTier.from_header
    rw [h]
    decide
  exact ⟨hm, by rw [hm]; decide, by rw [hm]; decide, by rw [hm]; decide⟩

/-- Witness for C9 at the concrete label "CuStOm". -/
theorem from_header_custom_alias_mega_witness :
    SubscriptionTier.from_header "CuStOm" = SubscriptionTier.Mega :=
  (from_header_custom_alias_mega "CuStOm" (by decide)).1

-- ═══════════════════════ Errors (src/errors.rs) ═══════════════════════

/-- Model of `AppError` from src/errors.rs. -/
inductive AppError where
  | NotFound (msg : String)
  | Elasticsearch (msg : String)
  | RateLimitExceeded (tier : String) (limit : Nat) (reset_at : String)
  | Unauthorized (msg : String)
  | Internal (msg : String)
deriving Repr, DecidableEq

/-- The observable parts of an actix `HttpResponse` built by
`AppError::to_response`: status code, extra headers, and the JSON error body. -/
structure HttpResponseModel where
  status : Nat
  headers : List (String × String)
  success : Bool
  code : Nat
  message : String
deriving Repr, DecidableEq

/-- Model of `AppError::to_response` from src/errors.rs, modelling the status code,
the rate-limit headers and the JSON body fields. -/
def AppError.to_response : AppError → HttpResponseModel
  | .NotFound msg => ⟨404, [], false, 404, msg⟩
  | .Elasticsearch msg =>
      ⟨500, [], false, 500, "Service temporarily unavailable: " ++ msg⟩
  | .RateLimitExceeded tier limit reset_at =>
      ⟨429,
       [("X-RateLimit-Limit", toString limit),
        ("X-RateLimit-Remaining", "0"),
        ("X-RateLimit-Reset", reset_at)],
       false, 429,
       "Rate limit exceeded. Your " ++ tier ++ " plan allows " ++
         toString limit ++ " requests per hour. Resets at " ++ reset_at ++
         ". Upgrade your plan for higher limits."⟩
  | .Unauthorized msg => ⟨403, [], false, 403, msg⟩
  | .Internal msg => ⟨500, [], false, 500, msg⟩

/-- Value of a named response header, if present. -/
def HttpResponseModel.header (r : HttpResponseModel) (k : String) : Option String :=
  (r.headers.find? (fun p => p.fst = k)).map Prod.snd

-- ═══════════════════════ Rate limiter (src/api/middleware/rate_limiter.rs) ═══════════════════════

/-- Model of `RateLimitEntry`: per-key admitted-request count plus the window stamp. -/
structure RateLimitEntry where
  count : Nat
  hour : Nat
  day : Nat
deriving Repr, DecidableEq

/-- The three projections of the wall clock that `RateLimiter::check` reads
from `Utc::now()`: `hour` is `now.format("%H")`, `day` is `now.format("%j")`,
and `reset_at` is `(now + 1h)` formatted with minute and second truncated to
zero.  Within one hourly window all three are constant, so a single `Clock`
value models "no intervening hour or day change". -/
structure Clock where
  hour : Nat
  day : Nat
  reset_at : String
deriving Repr, DecidableEq

/-- The `DashMap<String, RateLimitEntry>` of `RateLimiter`, as a map. -/
def RateState : Type := String → Option RateLimitEntry

/-- The dash-map key `format!("{}:{}", user, tier.name())`. -/
def rate_key (user : String) (tier : SubscriptionTier) : String :=
  user ++ ":" ++ tier.name

/-- Model of `RateLimiter::check`.  Returns the `Result<(limit, remaining), AppError>`
together with the updated entry table (the Rust code mutates the dash-map
entry in place; the insert-or-default and the stale-window reset persist even
when the call is rejected). -/
def RateLimiter.check (config : Config) (clock : Clock) (user : String)
    (tier : SubscriptionTier) (s : RateState) :
    Except AppError (Nat × Nat) × RateState :=
  let limit := tier.hourly_limit config
  let key := rate_key user tier
  let entry0 := (s key).getD ⟨0, clock.hour, clock.day⟩
  let entry1 := if entry0.hour ≠ clock.hour ∨ entry0.day ≠ clock.day
                then ⟨0, clock.hour, clock.day⟩ else entry0
  if limit ≤ entry1.count then
    (Except.error (AppError.RateLimitExceeded tier.name limit clock.reset_at),
     fun k => if k = key then some entry1 else s k)
  else
    (Except.ok (limit, limit - (entry1.count + 1)),
     fun k => if k = key then some ⟨entry1.count + 1, entry1.hour, entry1.day⟩ else s k)

/-- State after `n` consecutive `check` calls for the same user and tier
under the same clock reading. -/
def RateLimiter.checkIter (config : Config) (clock : Clock) (user : String)
    (tier : SubscriptionTier) : Nat → RateState → RateState
  | 0, s => s
  | n + 1, s =>
      (RateLimiter.check config clock user tier
        (RateLimiter.checkIter config clock user tier n s)).2

-- ═══════════════════════ C1 / C4: rate accounting ═══════════════════════

/-- After `n ≤ limit` checks from a fresh key under one clock reading, the
stored entry (or the insert-or-default view of it) carries count `n` and the
clock's window stamp. -/
lemma checkIter_entry (config : Config) (clock : Clock) (user : String)
    (tier : SubscriptionTier) (s : RateState)
    (h0 : s (rate_key user tier) = none) :
    ∀ n, n ≤ tier.hourly_limit config →
      ((RateLimiter.checkIter config clock user tier n s) (rate_key user tier)).getD
          ⟨0, clock.hour, clock.day⟩ = ⟨n, clock.hour, clock.day⟩ := by
  intro n
  induction n with
  | zero =>
      intro _
      simp [RateLimiter.checkIter, h0]
  | succ n ih =>
      intro hle
      have hn : n ≤ tier.hourly_limit config := Nat.le_of_succ_le hle
      have hlt : ¬ tier.hourly_limit config ≤ n := by omega
      have he := ih hn
      simp only [RateLimiter.checkIter, RateLimiter.check]
      cases hst : (RateLimiter.checkIter config clock user tier n s) (rate_key user tier) with
      | none =>
          rw [hst, Option.getD_none] at he
          have hn0 : n = 0 := by
            have hc := congrArg RateLimitEntry.count he
            simpa using hc.symm
          subst hn0
          simp [hst, hlt]
      | some e =>
          rw [hst, Option.getD_some] at he
          subst he
          simp [hst, hlt]

/-- C1: starting from a state with no entry for the key, each of the first
`quota(T)` checks in one hourly window succeeds (reporting the decreasing
remaining budget), and the very next check is rejected with
`RateLimitExceeded`; the rejection response reports remaining `0` (header
`X-RateLimit-Remaining`). -/
theorem rate_limit_exhaustion (config : Config) (clock : Clock) (user : String)
    (tier : SubscriptionTier) (s : RateState)
    (h0 : s (rate_key user tier) = none) :
    (∀ n, n < tier.hourly_limit config →
      (RateLimiter.check config clock user tier
          (RateLimiter.checkIter config clock user tier n s)).1
        = Except.ok (tier.hourly_limit config, tier.hourly_limit config - (n + 1))) ∧
    (RateLimiter.check config clock user tier
        (RateLimiter.checkIter config clock user tier (tier.hourly_limit config) s)).1
      = Except.error (AppError.RateLimitExceeded tier.name
          (tier.hourly_limit config) clock.reset_at) ∧
    (AppError.to_response (AppError.RateLimitExceeded tier.name
        (tier.hourly_limit config) clock.reset_at)).header "X-RateLimit-Remaining"
      = some "0" := by
  refine ⟨?_, ?_, ?_⟩
  · intro n hn
    have he := checkIter_entry config clock user tier s h0 n (Nat.le_of_lt hn)
    have hlt : ¬ tier.hourly_limit config ≤ n := by omega
    simp only [RateLimiter.check]
    cases hst : (RateLimiter.checkIter config clock user tier n s) (rate_key user tier) with
    | none =>
        rw [hst, Option.getD_none] at he
        have hn0 : n = 0 := by
          have hc := congrArg RateLimitEntry.count he
          simpa using hc.symm
        subst hn0
        simp [hst, hlt]
    | some e =>
        rw [hst, Option.getD_some] at he
        subst he
        simp [hst, hlt]
  · have he := checkIter_entry config clock user tier s h0
      (tier.hourly_limit config) (Nat.le_refl _)
    simp only [RateLimiter.check]
    cases hst : (RateLimiter.checkIter config clock user tier
        (tier.hourly_limit config) s) (rate_key user tier) with
    | none =>
        rw [hst, Option.getD_none] at he
        have hl0 : tier.hourly_limit config = 0 := by
          have hc := congrArg RateLimitEntry.count he
          simpa using hc.symm
        simp [hst, hl0]
    | some e =>
        rw [hst, Option.getD_some] at he
        subst he
        simp [hst]
  · rfl

/-- Shared concrete configuration: Basic quota of 2 requests per hour. -/
def cfg0 : Config :=
  ⟨"https://example.invalid", "elastic", "", "online-news-2026", 3000, "",
   2, 100, 1000, 10000⟩

/-- Shared concrete clock reading: 09:00 on day 100. -/
def clock0 : Clock := ⟨9, 100, "2026-04-10T10:00:00Z"⟩

/-- Witness for C1: with a Basic quota of 2, the first two checks succeed and
the third is rejected. -/
theorem rate_limit_exhaustion_witness :
    (RateLimiter.check cfg0 clock0 "u1" SubscriptionTier.Basic
        (RateLimiter.checkIter cfg0 clock0 "u1" SubscriptionTier.Basic 2
          (fun _ => none))).1
      = Except.error (AppError.RateLimitExceeded "basic" 2 "2026-04-10T10:00:00Z") :=
  (rate_limit_exhaustion cfg0 clock0 "u1" SubscriptionTier.Basic
    (fun _ => none) rfl).2.1

/-- C4: a rejected check in the current window (entry stamp equal to the
clock stamp, count at or above quota) leaves the whole entry table — in
particular the stored count — unchanged, and an immediately repeated check
returns the identical rejection with the same quota and reset timestamp. -/
theorem rejection_no_mutation (config : Config) (clock : Clock) (user : String)
    (tier : SubscriptionTier) (s : RateState) (e : RateLimitEntry)
    (hstored : s (rate_key user tier) = some e)
    (hhour : e.hour = clock.hour) (hday : e.day = clock.day)
    (hfull : tier.hourly_limit config ≤ e.count) :
    RateLimiter.check config clock user tier s
      = (Except.error (AppError.RateLimitExceeded tier.name
          (tier.hourly_limit config) clock.reset_at), s) ∧
    RateLimiter.check config clock user tier
        (RateLimiter.check config clock user tier s).2
      = (Except.error (AppError.RateLimitExceeded tier.name
          (tier.hourly_limit config) clock.reset_at), s) := by
  have h1 : RateLimiter.check config clock user tier s
      = (Except.error (AppError.RateLimitExceeded tier.name
          (tier.hourly_limit config) clock.reset_at), s) := by
    simp only [RateLimiter.check, hstored, Option.getD_some, hhour, hday]
    simp [hfull]
    funext k
    by_cases hk : k = rate_key user tier
    · simp [hk, hstored, hhour, hday]
    · simp [hk]
  refine ⟨h1, ?_⟩
  rw [h1]
  exact h1

/-- Concrete saturated state for the C4 witness: count 2 at quota 2, stamped
with the current window. -/
def satState : RateState :=
  fun k => if k = rate_key "u1" SubscriptionTier.Basic then some ⟨2, 9, 100⟩ else none

/-- Witness for C4 at the concrete saturated state. -/
theorem rejection_no_mutation_witness :
    RateLimiter.check cfg0 clock0 "u1" SubscriptionTier.Basic satState
      = (Except.error (AppError.RateLimitExceeded "basic" 2 "2026-04-10T10:00:00Z"),
         satState) :=
  (rejection_no_mutation cfg0 clock0 "u1" SubscriptionTier.Basic satState
    ⟨2, 9, 100⟩ (by decide) rfl rfl (by decide)).1

-- ═══════════════════════ Domain model (src/domain/models.rs) ═══════════════════════

/-- Model of `SentimentData`. -/
structure SentimentData where
  label : Option String
  score : Option Float
deriving Repr

/-- Model of `EmotionData`. -/
structure EmotionData where
  label : Option String
  score : Option Float
deriving Repr

/-- Model of `EntityData`: an extracted entity with word, group, score and span. -/
structure EntityData where
  word : Option String
  entity_group : Option String
  score : Option Float
  start : Option Int
  stop : Option Int
deriving Repr

/-- The annotation struct of src/domain/models.rs (named `Annotate` here,
after the field that carries it): sentiment, emotion, entity list, status. -/
structure Annotate where
  sentiment : Option SentimentData
  emotion : Option EmotionData
  entities : Option (List EntityData)
  status : Option String
deriving Repr

/-- Model of `NewsArticle`: identifier plus optional fields. A Rust `char` is a
Unicode scalar value, exactly a Lean `Char`, so `content.data` is the
character sequence `content.chars()` iterates. -/
structure NewsArticle where
  id : String
  title : Option String
  content : Option String
  author : Option String
  source : Option String
  url : Option String
  headline_image : Option String
  headline_caption : Option String
  publish_date : Option String
  publish_date_timestamp : Option Int
  tags : Option (List String)
  extracted_at : Option String
  ingested_at : Option String
  annotate : Option Annotate
deriving Repr

-- ═══════════════════════ Content gating (src/services/news_service.rs) ═══════════════════════

/-- The truncation applied to `content` when the tier lacks full access
(src/services/news_service.rs lines 77-83): keep the first 200 characters
and append "..." only when the original exceeded 200 characters. -/
def truncate_basic (content : String) : String :=
  if 200 < content.data.length then String.mk (content.data.take 200) ++ "..."
  else String.mk (content.data.take 200)

/-- Model of `NewsService::gate_article`: tier-based redaction of one article. -/
def NewsService.gate_article (article : NewsArticle) (tier : SubscriptionTier) :
    NewsArticle :=
  let article1 :=
    if !tier.has_full_content then
      match article.content with
      | some content => { article with content := some (truncate_basic content) }
      | none => article
    else article
  if !tier.has_entities then
    match article1.annotate with
    | some ann => { article1 with annotate := some { ann with entities := none } }
    | none => article1
  else article1

/-- Rebuilding a string from its character data is the identity. -/
lemma string_mk_data (s : String) : String.mk s.data = s := rfl

/-- Character data of the truncation when the content exceeds 200 chars. -/
lemma truncate_basic_data_of_gt (c : String) (h : 200 < c.data.length) :
    (truncate_basic c).data = c.data.take 200 ++ ("...").data := by
  unfold truncate_basic
  rw [if_pos h, String.data_append]

/-- Shape of the truncation when the content exceeds 200 chars. -/
lemma truncate_basic_of_gt (c : String) (h : 200 < c.data.length) :
    truncate_basic c = String.mk (c.data.take 200) ++ "..." := by
  unfold truncate_basic
  rw [if_pos h]

/-- The truncation is the identity when the content fits in 200 chars. -/
lemma truncate_basic_of_le (c : String) (h : c.data.length ≤ 200) :
    truncate_basic c = c := by
  unfold truncate_basic
  rw [if_neg (Nat.not_lt.mpr h), List.take_of_length_le h, string_mk_data]

/-- The Basic-tier truncation is idempotent. -/
lemma truncate_basic_idem (c : String) :
    truncate_basic (truncate_basic c) = truncate_basic c := by
  by_cases h : 200 < c.data.length
  · have hdata := truncate_basic_data_of_gt c h
    have htake : (truncate_basic c).data.take 200 = c.data.take 200 := by
      rw [hdata, List.take_append_eq_append_take, List.length_take,
        Nat.min_eq_left (Nat.le_of_lt h)]
      simp
    have hlen : 200 < (truncate_basic c).data.length := by
      rw [hdata, List.length_append, List.length_take,
        Nat.min_eq_left (Nat.le_of_lt h)]
      decide
    conv_lhs => rw [truncate_basic]
    rw [if_pos hlen, htake]
    conv_rhs => rw [truncate_basic]
    rw [if_pos h]
  · have hle := Nat.not_lt.mp h
    rw [truncate_basic_of_le c hle, truncate_basic_of_le c hle]

-- ═══════════════════════ C5 / C6 / C10: gating ═══════════════════════

/-- C5: Basic-tier gating on an article whose content exceeds 200 characters
yields exactly the first 200 characters followed by the "..." marker; on
content of at most 200 characters the content comes back unchanged, with no
marker.  The boundary counts characters (`data` elements), not bytes. -/
theorem gate_basic_truncates (a : NewsArticle) (c : String)
    (h : a.content = some c) :
    (200 < c.data.length →
      (NewsService.gate_article a SubscriptionTier.Basic).content
        = some (String.mk (c.data.take 200) ++ "...")) ∧
    (c.data.length ≤ 200 →
      (NewsService.gate_article a SubscriptionTier.Basic).content = some c) := by
  constructor
  · intro hgt
    cases han : a.annotate with
    | none =>
        simp [NewsService.gate_article, SubscriptionTier.has_full_content,
          SubscriptionTier.has_entities, h, han, truncate_basic_of_gt c hgt]
    | some ann =>
        simp [NewsService.gate_article, SubscriptionTier.has_full_content,
          SubscriptionTier.has_entities, h, han, truncate_basic_of_gt c hgt]
  · intro hle
    cases han : a.annotate with
    | none =>
        simp [NewsService.gate_article, SubscriptionTier.has_full_content,
          SubscriptionTier.has_entities, h, han, truncate_basic_of_le c hle]
    | some ann =>
        simp [NewsService.gate_article, SubscriptionTier.has_full_content,
          SubscriptionTier.has_entities, h, han, truncate_basic_of_le c hle]

/-- A run of 201 copies of a two-byte character: multi-byte witness content. -/
def content201 : String := String.mk (List.replicate 201 (Char.ofNat 233))

/-- Concrete article carrying `content201` for the C5 witness. -/
def article201 : NewsArticle :=
  ⟨"a1", none, some content201, none, none, none, none, none, none, none,
   none, none, none, none⟩

/-- Witness for C5 on multi-byte content of 201 characters. -/
theorem gate_basic_truncates_witness :
    (NewsService.gate_article article201 SubscriptionTier.Basic).content
      = some (String.mk (content201.data.take 200) ++ "...") :=
  (gate_basic_truncates article201 content201 rfl).1
    (by rw [show content201.data = List.replicate 201 (Char.ofNat 233) from rfl,
          List.length_replicate]
        omega)

/-- C6: gating is idempotent for every article and tier, covering both the
content truncation and the entity stripping. -/
theorem gate_idempotent (a : NewsArticle) (t : SubscriptionTier) :
    NewsService.gate_article (NewsService.gate_article a t) t
      = NewsService.gate_article a t := by
  cases t with
  | Ultra => rfl
  | Mega => rfl
  | Pro =>
      cases han : a.annotate with
      | none => simp [NewsService.gate_article, SubscriptionTier.has_full_content,
          SubscriptionTier.has_entities, han]
      | some ann => simp [NewsService.gate_article, SubscriptionTier.has_full_content,
          SubscriptionTier.has_entities, han]
  | Basic =>
      cases hc : a.content with
      | none =>
          cases han : a.annotate with
          | none => simp [NewsService.gate_article, SubscriptionTier.has_full_content,
              SubscriptionTier.has_entities, hc, han]
          | some ann => simp [NewsService.gate_article, SubscriptionTier.has_full_content,
              SubscriptionTier.has_entities, hc, han]
      | some c =>
          cases han : a.annotate with
          | none => simp [NewsService.gate_article, SubscriptionTier.has_full_content,
              SubscriptionTier.has_entities, hc, han, truncate_basic_idem]
          | some ann => simp [NewsService.gate_article, SubscriptionTier.has_full_content,
              SubscriptionTier.has_entities, hc, han, truncate_basic_idem]

/-- C10: gating touches at most the content and the entities inside the
annotation — id, title, author, source, url, header image and caption,
publish date fields, tags, ingestion timestamps, and the sentiment, emotion
and status of the annotation are always unchanged — and for the Ultra and
Mega tiers gating is the identity on the whole article. -/
theorem gate_frame (a : NewsArticle) (t : SubscriptionTier) :
    (NewsService.gate_article a t).id = a.id ∧
    (NewsService.gate_article a t).title = a.title ∧
    (NewsService.gate_article a t).author = a.author ∧
    (NewsService.gate_article a t).source = a.source ∧
    (NewsService.gate_article a t).url = a.url ∧
    (NewsService.gate_article a t).headline_image = a.headline_image ∧
    (NewsService.gate_article a t).headline_caption = a.headline_caption ∧
    (NewsService.gate_article a t).publish_date = a.publish_date ∧
    (NewsService.gate_article a t).publish_date_timestamp = a.publish_date_timestamp ∧
    (NewsService.gate_article a t).tags = a.tags ∧
    (NewsService.gate_article a t).extracted_at = a.extracted_at ∧
    (NewsService.gate_article a t).ingested_at = a.ingested_at ∧
    (NewsService.gate_article a t).annotate.map Annotate.sentiment
      = a.annotate.map Annotate.sentiment ∧
    (NewsService.gate_article a t).annotate.map Annotate.emotion
      = a.annotate.map Annotate.emotion ∧
    (NewsService.gate_article a t).annotate.map Annotate.status
      = a.annotate.map Annotate.status ∧
    NewsService.gate_article a SubscriptionTier.Ultra = a ∧
    NewsService.gate_article a SubscriptionTier.Mega = a := by
  cases t <;>
    cases hc : a.content <;>
      cases han : a.annotate <;>
        simp [NewsService.gate_article, SubscriptionTier.has_full_content,
          SubscriptionTier.has_entities, hc, han]

-- ═══════════════════════ Query building (src/infrastructure/elasticsearch.rs) ═══════════════════════

/-- A minimal model of `serde_json::Value` for the query documents. -/
inductive Json where
  | null
  | bool (b : Bool)
  | num (n : Nat)
  | str (s : String)
  | arr (items : List Json)
  | obj (fields : List (String × Json))

/-- Model of `NewsSearchParams` from src/domain/models.rs. -/
structure NewsSearchParams where
  q : Option String
  source : Option String
  tag : Option String
  sentiment : Option String
  emotion : Option String
  author : Option String
  date_from : Option String
  date_to : Option String
  sort : Option String
  page : Option Nat
  size : Option Nat

/-- Field lookup on a JSON object (none on other shapes). -/
def Json.getField : Json → String → Option Json
  | .obj fields, k => (fields.find? (fun f => f.fst == k)).map Prod.snd
  | _, _ => none

/-- One exact-term filter clause. -/
def term_filter (field v : String) : Json :=
  Json.obj [("term", Json.obj [(field, Json.str v)])]

/-- The `must` clauses of `EsRepository::search` (lines 95-106): a non-empty
free-text query becomes one multi-match clause; an absent or empty query
contributes nothing. -/
def build_must (p : NewsSearchParams) : List Json :=
  match p.q with
  | some q =>
      if q.isEmpty then []
      else
        [Json.obj [("multi_match", Json.obj
          [("query", Json.str q),
           ("fields", Json.arr [Json.str "title^3", Json.str "content"]),
           ("type", Json.str "best_fields"),
           ("fuzziness", Json.str "AUTO")])]]
  | none => []

/-- The `gte`/`lte` fields of the date-range filter (lines 114-116). -/
def range_fields (p : NewsSearchParams) : List (String × Json) :=
  (match p.date_from with | some v => [("gte", Json.str v)] | none => []) ++
  (match p.date_to with | some v => [("lte", Json.str v)] | none => [])

/-- The `filter` clauses of `EsRepository::search` (lines 108-119). -/
def build_filter (p : NewsSearchParams) : List Json :=
  (match p.source with | some v => [term_filter "source" v] | none => []) ++
  (match p.tag with | some v => [term_filter "tags" v] | none => []) ++
  (match p.sentiment with
   | some v => [term_filter "annotate.sentiment.label.keyword" v] | none => []) ++
  (match p.emotion with
   | some v => [term_filter "annotate.emotion.label.keyword" v] | none => []) ++
  (match p.author with | some v => [term_filter "author" v] | none => []) ++
  (if (range_fields p).isEmpty then []
   else [Json.obj [("range", Json.obj [("ingested_at", Json.obj (range_fields p))])]])

/-- The `query` part of the search body (lines 121-128). -/
def build_query (p : NewsSearchParams) : Json :=
  if (build_must p).isEmpty ∧ (build_filter p).isEmpty then
    Json.obj [("match_all", Json.obj [])]
  else
    Json.obj [("bool", Json.obj
      ((if (build_must p).isEmpty then []
        else [("must", Json.arr (build_must p))]) ++
       (if (build_filter p).isEmpty then []
        else [("filter", Json.arr (build_filter p))])))]

/-- Default sort: descending ingestion time. -/
def sort_desc_ingested : Json :=
  Json.arr [Json.obj [("ingested_at", Json.obj [("order", Json.str "desc")])]]

/-- The `sort` clause (lines 130-134).  The relevance arm is guarded by
`params.q.is_some()` — presence, not non-emptiness, of the text query. -/
def build_sort (p : NewsSearchParams) : Json :=
  match p.sort with
  | some "oldest" => Json.arr [Json.obj [("ingested_at", Json.obj [("order", Json.str "asc")])]]
  | some "relevance" =>
      if p.q.isSome then Json.arr [Json.str "_score"] else sort_desc_ingested
  | _ => sort_desc_ingested

/-- Effective page number: `params.page.unwrap_or(1).max(1)` (line 88). -/
def effective_page (p : NewsSearchParams) : Nat := max (p.page.getD 1) 1

/-- Effective page size: `params.size.unwrap_or(10).min(max_size)` (line 89). -/
def effective_size (p : NewsSearchParams) (max_size : Nat) : Nat :=
  min (p.size.getD 10) max_size

/-- Wrapping u64 multiplication: the product `(page - 1) * size` on line 90
is computed in `u64`, which wraps modulo 2^64 in release builds (debug
builds panic on overflow); the wrapping result is modelled. -/
def u64_mul (a b : Nat) : Nat := a * b % 2 ^ 64

/-- The complete search body (lines 136-142).  `page` and `size` arrive from
the query string as `u64` values; the subtraction and the `min`/`max` cannot
overflow, the multiplication on line 90 can and wraps. -/
def search_body (p : NewsSearchParams) (max_size : Nat) : Json :=
  Json.obj
    [("query", build_query p),
     ("sort", build_sort p),
     ("from", Json.num (u64_mul (effective_page p - 1) (effective_size p max_size))),
     ("size", Json.num (effective_size p max_size)),
     ("track_total_hits", Json.bool true)]

/-- Whether a sort clause carries the `_score` element. -/
def sort_mentions_score (j : Json) : Bool :=
  match j with
  | .arr items => items.any (fun it => match it with | .str s => s == "_score" | _ => false)
  | _ => false

-- ═══════════════════════ C2: relevance sort without a text query ═══════════════════════

/-- Search parameters with a present-but-empty text query and relevance sort. -/
def params_empty_q : NewsSearchParams :=
  ⟨some "", none, none, none, none, none, none, none, some "relevance", none, none⟩

/-- C2 (counterexample): with `sort=relevance` and a present-but-empty text
query, the built document does carry a `_score` sort clause, although the
query part contains no text clause (the guard tests presence of `q`, not
non-emptiness). -/
theorem relevance_empty_query_scores :
    params_empty_q.q = some "" ∧ params_empty_q.sort = some "relevance" ∧
    build_must params_empty_q = [] ∧
    (search_body params_empty_q 10).getField "sort"
      = some (Json.arr [Json.str "_score"]) ∧
    sort_mentions_score (build_sort params_empty_q) = true := by
  refine ⟨rfl, rfl, rfl, rfl, rfl⟩

/-- C2 (amended): when `sort=relevance` and the text query is absent
(`q = none`), the built document carries no `_score` sort clause and falls
through to descending ingestion time; a present-but-empty query, however,
does produce the `_score` sort. -/
theorem relevance_absent_query_sorts_by_time (p : NewsSearchParams) (m : Nat)
    (hsort : p.sort = some "relevance") (hq : p.q = none) :
    (search_body p m).getField "sort" = some sort_desc_ingested ∧
    sort_mentions_score (build_sort p) = false := by
  have hs : build_sort p = sort_desc_ingested := by
    unfold build_sort
    rw [hsort, hq]
    rfl
  constructor
  · have hfield : (search_body p m).getField "sort" = some (build_sort p) := rfl
    rw [hfield, hs]
  · rw [hs]
    rfl

/-- Relevance-sorted parameters with no text query, for the C2 witness. -/
def params_relevance_no_q : NewsSearchParams :=
  ⟨none, none, none, none, none, none, none, none, some "relevance", none, none⟩

/-- Witness for C2 (amended) at concrete parameters. -/
theorem relevance_absent_query_sorts_by_time_witness :
    (search_body params_relevance_no_q 10).getField "sort"
      = some sort_desc_ingested :=
  (relevance_absent_query_sorts_by_time params_relevance_no_q 10 rfl rfl).1

-- ═══════════════════════ C8: pagination ═══════════════════════

/-- Page 2 with an oversized requested page size, for the Basic cap check. -/
def params_page2 : NewsSearchParams :=
  ⟨none, none, none, none, none, none, none, none, none, some 2, some 999⟩

/-- Query-string pagination at the largest representable u64 page value. -/
def params_huge_page : NewsSearchParams :=
  ⟨none, none, none, none, none, none, none, none, none,
   some (2 ^ 64 - 1), some 999⟩

/-- C8 (counterexample): at the in-range u64 request `page = 2^64 - 1,
size = 999` under the Basic cap, the document's `from` is the wrapped u64
product, not the mathematical `(page - 1) * size` the claim asserts for
every search request. -/
theorem pagination_overflow_refutes_formula :
    (search_body params_huge_page SubscriptionTier.Basic.max_page_size).getField "from"
      = some (Json.num 18446744073709551596) ∧
    (max (params_huge_page.page.getD 1) 1 - 1)
        * min (params_huge_page.size.getD 10) SubscriptionTier.Basic.max_page_size
      = 184467440737095516140 ∧
    (18446744073709551596 : Nat) ≠ 184467440737095516140 := by
  refine ⟨rfl, by decide, by decide⟩

/-- C8 (amended): the built document always carries
`from = ((page - 1) * size) mod 2^64` — the u64 product of the page floored
at 1 (default 1) and the size capped at the caller-supplied effective page
size (default 10), wrapping as on line 90; concretely, `page=2,size=999`
under the Basic tier cap is sent with size 10 and offset 10. -/
theorem pagination_offsets_u64 (p : NewsSearchParams) (m : Nat) :
    (search_body p m).getField "from"
      = some (Json.num (((max (p.page.getD 1) 1 - 1) * min (p.size.getD 10) m) % 2 ^ 64)) ∧
    (search_body p m).getField "size"
      = some (Json.num (min (p.size.getD 10) m)) ∧
    (search_body params_page2 SubscriptionTier.Basic.max_page_size).getField "from"
      = some (Json.num 10) ∧
    (search_body params_page2 SubscriptionTier.Basic.max_page_size).getField "size"
      = some (Json.num 10) := by
  refine ⟨?_, ?_, rfl, rfl⟩
  · rfl
  · rfl

-- ═══════════════════════ Trending (src/infrastructure/elasticsearch.rs) ═══════════════════════

/-- Model of `TrendingItem` from src/domain/models.rs. -/
structure TrendingItem where
  keyword : String
  category : String
  count : Nat
deriving Repr, DecidableEq

/-- Model of `EsRepository::collect_trending` (lines 255-267): pick each bucket with
a string `key` and a numeric `doc_count`, in order, skipping the rest. -/
def collect_trending (buckets : Json) (category : String) : List TrendingItem :=
  match buckets with
  | .arr bs =>
      bs.filterMap (fun b =>
        match b.getField "key", b.getField "doc_count" with
        | some (.str k), some (.num c) => some ⟨k, category, c⟩
        | _, _ => none)
  | _ => []

/-- The comparator of `items.sort_by(|a, b| b.count.cmp(&a.count))`:
`a` may precede `b` when `b.count ≤ a.count` (descending by count). -/
def trending_le (a b : TrendingItem) : Bool := decide (b.count ≤ a.count)

/-- Stable sorting: `Vec::sort_by` is a stable sort; `List.mergeSort` models it. -/
def sort_trending (items : List TrendingItem) : List TrendingItem :=
  items.mergeSort trending_le

/-- Model of `EsRepository::trending` after the backend call (lines 215-221): entity
buckets are collected first, tag buckets appended after, then the combined
list is stably sorted descending by count. -/
def trending_result (entBuckets tagBuckets : Json) : List TrendingItem :=
  sort_trending
    (collect_trending entBuckets "entity" ++ collect_trending tagBuckets "tag")

lemma trending_le_trans : ∀ a b c : TrendingItem,
    trending_le a b = true → trending_le b c = true → trending_le a c = true := by
  intro a b c h1 h2
  simp [trending_le] at *
  omega

lemma trending_le_total : ∀ a b : TrendingItem,
    (trending_le a b || trending_le b a) = true := by
  intro a b
  rcases Nat.le_total b.count a.count with h | h <;> simp [trending_le, h]

/-- Stability of the trending sort: the subsequence of items at any fixed
count is unchanged by sorting. -/
lemma sort_trending_stable (l : List TrendingItem) (c : Nat) :
    (sort_trending l).filter (fun it => it.count == c)
      = l.filter (fun it => it.count == c) := by
  set p : TrendingItem → Bool := fun it => it.count == c with hp
  have hpair : (l.filter p).Pairwise (fun a b => trending_le a b = true) := by
    apply List.pairwise_of_forall_mem_list
    intro a ha b hb
    have ha2 := (List.mem_filter.mp ha).2
    have hb2 := (List.mem_filter.mp hb).2
    simp [hp] at ha2 hb2
    simp [trending_le, ha2, hb2]
  have hsl : (l.filter p).Sublist (sort_trending l) :=
    List.sublist_mergeSort trending_le_trans trending_le_total hpair
      (List.filter_sublist l)
  have hsl2 : (l.filter p).Sublist ((sort_trending l).filter p) := by
    have hf := hsl.filter p
    rwa [List.filter_filter, show (fun a => p a && p a) = p from by funext a; simp]
      at hf
  have hperm : ((sort_trending l).filter p).Perm (l.filter p) :=
    (List.mergeSort_perm l trending_le).filter p
  exact (hsl2.eq_of_length hperm.length_eq.symm).symm

/-- Entity bucket list `[("x",5)]` from the spec example. -/
def ent_bucket_x5 : Json :=
  Json.arr [Json.obj [("key", Json.str "x"), ("doc_count", Json.num 5)]]

/-- Tag bucket list `[("x",5)]` from the spec example. -/
def tag_bucket_x5 : Json :=
  Json.arr [Json.obj [("key", Json.str "x"), ("doc_count", Json.num 5)]]

/-- C7: trending keeps one item per parseable bucket from both lists (the
result is a permutation of the entity items followed by the tag items, so an
entity and a tag with the same keyword are both kept), is sorted descending
by count, and the sort is stable: at every fixed count the subsequence is
the insertion order, entities before tags.  On the spec example — entity
bucket `("x",5)` and tag bucket `("x",5)` — both items come back, entity
first. -/
theorem trending_combines_and_sorts (entB tagB : Json) :
    (trending_result entB tagB).Perm
      (collect_trending entB "entity" ++ collect_trending tagB "tag") ∧
    (trending_result entB tagB).Pairwise (fun a b => b.count ≤ a.count) ∧
    (∀ c : Nat, (trending_result entB tagB).filter (fun it => it.count == c)
      = (collect_trending entB "entity" ++ collect_trending tagB "tag").filter
          (fun it => it.count == c)) ∧
    trending_result ent_bucket_x5 tag_bucket_x5
      = [⟨"x", "entity", 5⟩, ⟨"x", "tag", 5⟩] := by
  refine ⟨List.mergeSort_perm _ _, ?_, fun c => sort_trending_stable _ c, ?_⟩
  · have hs := List.sorted_mergeSort trending_le_trans trending_le_total
      (collect_trending entB "entity" ++ collect_trending tagB "tag")
    exact hs.imp (fun h => of_decide_eq_true h)
  · have hitems : collect_trending ent_bucket_x5 "entity"
        ++ collect_trending tag_bucket_x5 "tag"
        = [⟨"x", "entity", 5⟩, ⟨"x", "tag", 5⟩] := rfl
    have hmem : ∀ x ∈ trending_result ent_bucket_x5 tag_bucket_x5,
        (fun it : TrendingItem => it.count == 5) x = true := by
      intro x hx
      have hx2 := (List.mergeSort_perm _ trending_le).mem_iff.mp hx
      rw [hitems] at hx2
      simp only [List.mem_cons, List.not_mem_nil, or_false] at hx2
      rcases hx2 with h | h <;> subst h <;> decide
    have h1 : trending_result ent_bucket_x5 tag_bucket_x5
        = (trending_result ent_bucket_x5 tag_bucket_x5).filter
            (fun it => it.count == 5) :=
      (List.filter_eq_self.mpr hmem).symm
    have h2 := sort_trending_stable
      (collect_trending ent_bucket_x5 "entity"
        ++ collect_trending tag_bucket_x5 "tag") 5
    rw [h1]
    show (sort_trending _).filter _ = _
    rw [h2, hitems]
    decide
